import Mathlib

/-!
Verification of the benchmark-runner core (trial orchestration loop and
metrics-reduction engine) against its specification.

The Python sources are embedded shallowly:
* timings (Python floats) are modelled as rationals `ℚ`;
* `src/metrics.py` (`_median_across_trials`, `compute_metrics`) becomes pure
  functions on lists of rationals;
* the trial loop of `src/runner.py` (`run_benchmarks`) becomes explicit state
  passing over a `BenchData` accumulator, with the suite adapter as a record of
  functions and the on-disk existence of the profile artifact as an oracle
  `fs : String → Bool` describing the disk after the profiling step;
* the keyword-argument call from `src/run.py` into `run_benchmarks` is modelled
  by Python's call-binding semantics: binding an unexpected keyword raises
  `TypeError` before the callee's body runs.
-/

namespace BenchmarkRunner

/-- Outcome of one subprocess invocation (`RunResult` in src/suites/base.py):
per-iteration times (ms), compile time (ms, -1 if N/A), captured output,
exit code. -/
structure RunResult where
  iteration_times : List ℚ
  compile_time : ℚ
  raw_output : String
  exit_code : Int
deriving Repr, DecidableEq

/-- Per-benchmark accumulation built by the trial loop of src/runner.py:
the dict `{"cold": [], "warm": [], "compile_times": []}`. -/
structure BenchData where
  cold : List (List ℚ)
  warm : List (List ℚ)
  compile_times : List ℚ
deriving Repr, DecidableEq

/-- Insert a value into an ascending-sorted list, keeping it sorted. -/
def insertSorted (x : ℚ) : List ℚ → List ℚ
  | [] => [x]
  | y :: ys => if x ≤ y then x :: y :: ys else y :: insertSorted x ys

/-- Ascending sort by insertion; models Python `sorted` (on numbers the
sorted sequence of a multiset is unique, so the sorting algorithm is
irrelevant). -/
def pySort : List ℚ → List ℚ
  | [] => []
  | x :: xs => insertSorted x (pySort xs)

/-- Python `statistics.median`: sort; middle element when the length is odd,
mean of the two middle elements when even. -/
def median (l : List ℚ) : ℚ :=
  let s := pySort l
  let n := s.length
  if n % 2 = 1 then s.getD (n / 2) 0
  else (s.getD (n / 2 - 1) 0 + s.getD (n / 2) 0) / 2

/-- Python `statistics.mean`: sum divided by length. -/
def mean (l : List ℚ) : ℚ := l.sum / (l.length : ℚ)

/-- Python `min` over a non-empty list (the `[]` case never arises at the
guarded call site in `compute_metrics`). -/
def pyMin : List ℚ → ℚ
  | [] => 0
  | [x] => x
  | x :: y :: ys => min x (pyMin (y :: ys))

/-- The values voting at index `i`: `[t[i] for t in trial_arrays if len(t) > i]`
in `_median_across_trials` (src/metrics.py line 13). -/
def valsAt (trial_arrays : List (List ℚ)) (i : Nat) : List ℚ :=
  (trial_arrays.filter (fun t => decide (i < t.length))).map (fun t => t.getD i 0)

/-- `_median_across_trials` (src/metrics.py lines 6-15): `[]` when the input is
empty or every trial array is empty (`not trial_arrays or not any(trial_arrays)`);
otherwise, with `max_len` the maximum length of the non-empty trial arrays, the
curve whose entry at each `i < max_len` is the median of the values voting
there, `0.0` if none vote. -/
def medianAcrossTrials (trial_arrays : List (List ℚ)) : List ℚ :=
  if trial_arrays = [] ∨ ∀ t ∈ trial_arrays, t = [] then []
  else
    let max_len := ((trial_arrays.filter (fun t => !t.isEmpty)).map List.length).foldr max 0
    (List.range max_len).map (fun i =>
      let vals := valsAt trial_arrays i
      if vals = [] then 0 else median vals)

/-- `cold[-10:] if len(cold) >= 10 else cold` (src/metrics.py line 34). -/
def tail10 (cold : List ℚ) : List ℚ :=
  if 10 ≤ cold.length then cold.drop (cold.length - 10) else cold

/-- `m["cold_optimal"]`: mean of the last 10 cold-curve values inside the
`if cold:` branch, `0` in the `else` branch (src/metrics.py lines 32-46). -/
def cold_optimal_of (cold : List ℚ) : ℚ :=
  if cold = [] then 0 else mean (tail10 cold)

/-- `m["optimal_speedup"]`: `cold[0] / cold_optimal if cold_optimal > 0 else 0`
inside the `if cold:` branch, `0` in the `else` branch (src/metrics.py
lines 37, 47). -/
def optimal_speedup_of (cold : List ℚ) : ℚ :=
  if cold = [] then 0
  else if 0 < cold_optimal_of cold then cold.headD 0 / cold_optimal_of cold else 0

/-- `threshold = cold_min * 1.1` (src/metrics.py lines 40-41); in ℚ the
literal `1.1` is exactly 11/10. -/
def threshold_of (cold : List ℚ) : ℚ := pyMin cold * 1.1

/-- `next((i for i, t in enumerate(cold) if t <= threshold), len(cold))`
(src/metrics.py lines 42-44): the first index whose value is at most `thr`,
or the list's length when there is none. -/
def firstIdxLE (thr : ℚ) : List ℚ → Nat
  | [] => 0
  | t :: rest => if t ≤ thr then 0 else firstIdxLE thr rest + 1

/-- `m["cold_time_to_optimal"]`: first index within 10% of the cold minimum
inside the `if cold:` branch, `-1` in the `else` branch (src/metrics.py
lines 42-48). -/
def cold_time_to_optimal_of (cold : List ℚ) : Int :=
  if cold = [] then -1 else (firstIdxLE (threshold_of cold) cold : Int)

/-- `warm_target = warm[2] if len(warm) > 2 else (warm[-1] if warm else 0)`
(src/metrics.py line 51). -/
def warm_target_of (warm : List ℚ) : ℚ :=
  if 2 < warm.length then warm.getD 2 0
  else if warm = [] then 0 else (warm.getLast?).getD 0

/-- `m["our_improvement"] = cold[0] / warm_target if cold and warm_target > 0
else 0` (src/metrics.py line 53). -/
def our_improvement_of (cold : List ℚ) (warm_target : ℚ) : ℚ :=
  if cold ≠ [] ∧ 0 < warm_target then cold.headD 0 / warm_target else 0

/-- `m["closeness_ratio"]`: `[c / warm_target for c in cold]` when
`warm_target > 0 and cold`, else `[]` (src/metrics.py lines 55-59). -/
def closeness_ratio_of (cold : List ℚ) (warm_target : ℚ) : List ℚ :=
  if 0 < warm_target ∧ cold ≠ [] then cold.map (fun c => c / warm_target) else []

/-- `compile_times = [t for t in data["compile_times"] if t >= 0]` then
`m["compile_time_median"] = statistics.median(compile_times) if compile_times
else -1` (src/metrics.py lines 28, 62). -/
def compile_time_median_of (compile_times_raw : List ℚ) : ℚ :=
  let compile_times := compile_times_raw.filter (fun t => decide (0 ≤ t))
  if compile_times = [] then -1 else median compile_times

/-- The per-benchmark metrics dict `m` built by `compute_metrics`
(src/metrics.py). `cold_time_to_optimal` is an `Int` because the empty-curve
sentinel is `-1`. -/
structure MetricsRecord where
  cold_optimal : ℚ
  optimal_speedup : ℚ
  cold_time_to_optimal : Int
  warm_target : ℚ
  our_improvement : ℚ
  closeness_ratio : List ℚ
  compile_time_median : ℚ
  cold_curve : List ℚ
  warm_curve : List ℚ
deriving Repr, DecidableEq

/-- The loop body of `compute_metrics` for one benchmark's data
(src/metrics.py lines 25-67). -/
def computeMetricsBench (data : BenchData) : MetricsRecord :=
  let cold := medianAcrossTrials data.cold
  let warm := medianAcrossTrials data.warm
  let warm_target := warm_target_of warm
  { cold_optimal := cold_optimal_of cold
    optimal_speedup := optimal_speedup_of cold
    cold_time_to_optimal := cold_time_to_optimal_of cold
    warm_target := warm_target
    our_improvement := our_improvement_of cold warm_target
    closeness_ratio := closeness_ratio_of cold warm_target
    compile_time_median := compile_time_median_of data.compile_times
    cold_curve := cold
    warm_curve := warm }

/-- `compute_metrics` (src/metrics.py lines 18-75): the per-benchmark body
mapped over all benchmarks; the Python dict is an association list here. -/
def compute_metrics (all_results : List (String × BenchData)) :
    List (String × MetricsRecord) :=
  all_results.map (fun p => (p.1, computeMetricsBench p.2))

/-- The suite adapter consumed by the orchestrator (`BenchmarkSuite` in
src/suites/base.py): cold, profiling and warm invocations, each returning a
`RunResult`. -/
structure Suite where
  run_cold : String → Nat → RunResult
  run_profiling : String → Nat → String → RunResult
  run_warm : String → Nat → String → RunResult

/-- The trial-unique profile artifact path
`run_dir / "raw" / f"{bench}_trial{trial}.mdox"` (src/runner.py line 38),
with the run-scoped directory prefix elided. -/
def profilePath (bench : String) (trial : Nat) : String :=
  bench ++ "_trial" ++ toString trial ++ ".mdox"

/-- One iteration of the trial loop of `run_benchmarks` (src/runner.py lines
35-65), acting on the per-benchmark accumulation. `fs` is the disk oracle:
`fs p = true` iff the file at path `p` exists after the profiling run
(`Path(profile_path).exists()`, line 53). The cold sequence is appended
unconditionally; when the artifact is missing the trial records `[]` and
`-1.0` and the warm invocation is never consulted; otherwise the warm run's
sequence and compile time are recorded. -/
def runTrial (suite : Suite) (fs : String → Bool) (bench : String)
    (profile_iters bench_iters trial : Nat) (d : BenchData) : BenchData :=
  let profile_path := profilePath bench trial
  let cold := suite.run_cold bench bench_iters
  let d1 : BenchData := { d with cold := d.cold ++ [cold.iteration_times] }
  let _prof := suite.run_profiling bench profile_iters profile_path
  if fs profile_path then
    let warm := suite.run_warm bench bench_iters profile_path
    { d1 with
        warm := d1.warm ++ [warm.iteration_times]
        compile_times := d1.compile_times ++ [warm.compile_time] }
  else
    { d1 with
        warm := d1.warm ++ [([] : List ℚ)]
        compile_times := d1.compile_times ++ [(-1 : ℚ)] }

/-- `for trial in range(trials)` (src/runner.py line 35): the accumulation
after the first `n` trials, starting from
`{"cold": [], "warm": [], "compile_times": []}` (line 33). -/
def runTrials (suite : Suite) (fs : String → Bool) (bench : String)
    (profile_iters bench_iters : Nat) : Nat → BenchData
  | 0 => ⟨[], [], []⟩
  | n + 1 =>
      runTrial suite fs bench profile_iters bench_iters n
        (runTrials suite fs bench profile_iters bench_iters n)

/-- The parameter names of `def run_benchmarks(...)` (src/runner.py
lines 12-19). -/
def run_benchmarks_params : List String :=
  [
    ("suite" : String),
    ("benchmarks" : String),
    ("profile_iters" : String),
    ("bench_iters" : String),
    ("trials" : String),
    ("output_dir" : String)
  ]

/-- The keyword names used by `main`'s call `run_benchmarks(suite=..., ...,
cold_only=args.cold_only)` (src/run.py lines 64-72). -/
def main_run_benchmarks_kwargs : List String :=
  [
    ("suite" : String),
    ("benchmarks" : String),
    ("profile_iters" : String),
    ("bench_iters" : String),
    ("trials" : String),
    ("output_dir" : String),
    ("cold_only" : String)
  ]

/-- Errors raised by the modelled Python fragments. -/
inductive PyError where
  | typeError
deriving Repr, DecidableEq

/-- Python call semantics for an all-keyword call: argument binding checks
every supplied keyword against the callee's declared parameter names and
raises `TypeError` before the callee's body runs when one is unexpected; the
body is a thunk so that it is evaluated only when binding succeeds. -/
def callWithKwargs {α : Type} (params kwargs : List String) (body : Unit → α) :
    Except PyError α :=
  if kwargs.all (fun k => params.contains k) then Except.ok (body ())
  else Except.error PyError.typeError

/-- The tail of `main` (src/run.py lines 64-72) once argument parsing, setup
validation and benchmark-name validation have passed: the keyword call into
`run_benchmarks`, whose body runs every trial of every benchmark. -/
def mainRunBenchmarksCall (suite : Suite) (fs : String → Bool)
    (benchmarks : List String) (profile_iters bench_iters trials : Nat) :
    Except PyError (List (String × BenchData)) :=
  callWithKwargs run_benchmarks_params main_run_benchmarks_kwargs
    (fun _ =>
      benchmarks.map (fun bench =>
        (bench, runTrials suite fs bench profile_iters bench_iters trials)))

/-- A concrete run result used to instantiate theorems. -/
def demoResult : RunResult :=
  { iteration_times := [1], compile_time := -1, raw_output := "", exit_code := 0 }

/-- A concrete suite whose three invocations all return `demoResult`. -/
def demoSuite : Suite :=
  { run_cold := fun _ _ => demoResult
    run_profiling := fun _ _ _ => demoResult
    run_warm := fun _ _ _ =>
      { iteration_times := [2, 3], compile_time := 5, raw_output := "", exit_code := 0 } }

/-- A concrete benchmark name used to instantiate theorems. -/
def demoBench : String := "avrora"

/-! ### Helper lemmas -/

/-- `firstIdxLE` never exceeds the list's length. -/
theorem firstIdxLE_le_length (thr : ℚ) (l : List ℚ) :
    firstIdxLE thr l ≤ l.length := by
  induction l with
  | nil => simp [firstIdxLE]
  | cons t rest ih =>
      by_cases h : t ≤ thr
      · simp [firstIdxLE, h]
      · simp only [firstIdxLE, List.length_cons, if_neg h]
        exact Nat.succ_le_succ ih

/-- `firstIdxLE` hits the length exactly when no element is at most the
threshold. -/
theorem firstIdxLE_eq_length_iff (thr : ℚ) (l : List ℚ) :
    firstIdxLE thr l = l.length ↔ ∀ v ∈ l, ¬ v ≤ thr := by
  induction l with
  | nil => simp [firstIdxLE]
  | cons t rest ih =>
      by_cases h : t ≤ thr
      · simp only [firstIdxLE, if_pos h, List.length_cons, List.mem_cons]
        constructor
        · intro h0; omega
        · intro hall; exact absurd h (hall t (Or.inl rfl))
      · simp only [firstIdxLE, if_neg h, List.length_cons, List.mem_cons]
        constructor
        · intro h1
          have h2 : firstIdxLE thr rest = rest.length := by omega
          intro v hv
          rcases hv with rfl | hv
          · exact h
          · exact (ih.mp h2) v hv
        · intro hall
          have h2 : firstIdxLE thr rest = rest.length :=
            ih.mpr (fun v hv => hall v (Or.inr hv))
          omega

/-- The fold that models Python `max` over a non-empty list of naturals
returns a member of the list. -/
theorem foldr_max_mem (x : Nat) (xs : List Nat) :
    (x :: xs).foldr max 0 ∈ x :: xs := by
  induction xs generalizing x with
  | nil => simp
  | cons y ys ih =>
      rcases max_choice x ((y :: ys).foldr max 0) with h | h
      · simp only [List.foldr_cons] at h ⊢
        rw [h]
        exact List.mem_cons_self _ _
      · simp only [List.foldr_cons] at h ⊢
        rw [h]
        exact List.mem_cons_of_mem _ (ih y)

/-- Every member of a list of naturals is at most the `max`-fold. -/
theorem le_foldr_max (l : List Nat) : ∀ x ∈ l, x ≤ l.foldr max 0 := by
  induction l with
  | nil => simp
  | cons a t ih =>
      intro x hx
      rcases List.mem_cons.mp hx with h | h
      · subst h; exact le_max_left _ _
      · exact le_trans (ih x h) (le_max_right _ _)

/-- Field equations of `computeMetricsBench`, used to move from the record to
the defining functions. -/
theorem computeMetricsBench_cold_curve (data : BenchData) :
    (computeMetricsBench data).cold_curve = medianAcrossTrials data.cold := rfl

theorem computeMetricsBench_ctto (data : BenchData) :
    (computeMetricsBench data).cold_time_to_optimal =
      cold_time_to_optimal_of (medianAcrossTrials data.cold) := rfl

theorem computeMetricsBench_cold_optimal (data : BenchData) :
    (computeMetricsBench data).cold_optimal =
      cold_optimal_of (medianAcrossTrials data.cold) := rfl

theorem computeMetricsBench_optimal_speedup (data : BenchData) :
    (computeMetricsBench data).optimal_speedup =
      optimal_speedup_of (medianAcrossTrials data.cold) := rfl

theorem computeMetricsBench_warm_target (data : BenchData) :
    (computeMetricsBench data).warm_target =
      warm_target_of (medianAcrossTrials data.warm) := rfl

theorem computeMetricsBench_our_improvement (data : BenchData) :
    (computeMetricsBench data).our_improvement =
      our_improvement_of (medianAcrossTrials data.cold)
        (warm_target_of (medianAcrossTrials data.warm)) := rfl

theorem computeMetricsBench_closeness (data : BenchData) :
    (computeMetricsBench data).closeness_ratio =
      closeness_ratio_of (medianAcrossTrials data.cold)
        (warm_target_of (medianAcrossTrials data.warm)) := rfl

/-! ### Claims -/

/-- Claim C5: every invocation of the CLI entry point `main` that passes
argument parsing, setup validation and benchmark-name validation calls
`run_benchmarks` with a `cold_only` keyword argument that `run_benchmarks`
does not declare, so keyword binding raises `TypeError` before any benchmark
trial executes (the thunked body holding the trial loop is never forced). -/
theorem claim_C5 (suite : Suite) (fs : String → Bool) (benchmarks : List String)
    (profile_iters bench_iters trials : Nat) :
    mainRunBenchmarksCall suite fs benchmarks profile_iters bench_iters trials =
      Except.error PyError.typeError := rfl

/-- Claim C8: the cold run's iteration-time sequence is appended to the
benchmark's cold accumulation unconditionally — for every suite, hence also
when the cold run's exit code is non-zero or its parsed sequence is empty. -/
theorem claim_C8 (suite : Suite) (fs : String → Bool) (bench : String)
    (profile_iters bench_iters trial : Nat) (d : BenchData) :
    (runTrial suite fs bench profile_iters bench_iters trial d).cold =
      d.cold ++ [(suite.run_cold bench bench_iters).iteration_times] := by
  unfold runTrial
  by_cases h : fs (profilePath bench trial) <;> simp [h]

/-- Claim C9: after `n` iterations of the trial loop the accumulation holds
exactly `n` cold entries, `n` warm entries and `n` compile-time entries —
one per trial attempted, whether or not the profiling artifact appeared. -/
theorem claim_C9 (suite : Suite) (fs : String → Bool) (bench : String)
    (profile_iters bench_iters n : Nat) :
    (runTrials suite fs bench profile_iters bench_iters n).cold.length = n ∧
    (runTrials suite fs bench profile_iters bench_iters n).warm.length = n ∧
    (runTrials suite fs bench profile_iters bench_iters n).compile_times.length = n := by
  induction n with
  | zero => exact ⟨rfl, rfl, rfl⟩
  | succ k ih =>
      obtain ⟨h1, h2, h3⟩ := ih
      show (runTrial _ _ _ _ _ k _).cold.length = k + 1 ∧
        (runTrial _ _ _ _ _ k _).warm.length = k + 1 ∧
        (runTrial _ _ _ _ _ k _).compile_times.length = k + 1
      unfold runTrial
      by_cases h : fs (profilePath bench k) <;> simp [h, h1, h2, h3]

/-- Claim C4: when the profile artifact is absent after the profiling run
(`fs` reports the trial's path missing), the trial records an empty warm
sequence and the `-1.0` compile-time sentinel, the warm invocation is never
consulted (a suite differing arbitrarily in `run_profiling` and `run_warm`
yields the same accumulation), and the loop proceeds to the next trial. -/
theorem claim_C4 (suite suite2 : Suite) (fs : String → Bool) (bench : String)
    (profile_iters bench_iters trial : Nat) (d : BenchData)
    (hmiss : fs (profilePath bench trial) = false)
    (hcold : suite2.run_cold = suite.run_cold) :
    (runTrial suite fs bench profile_iters bench_iters trial d).warm =
      d.warm ++ [([] : List ℚ)] ∧
    (runTrial suite fs bench profile_iters bench_iters trial d).compile_times =
      d.compile_times ++ [(-1 : ℚ)] ∧
    runTrial suite2 fs bench profile_iters bench_iters trial d =
      runTrial suite fs bench profile_iters bench_iters trial d ∧
    runTrials suite fs bench profile_iters bench_iters (trial + 1) =
      runTrial suite fs bench profile_iters bench_iters trial
        (runTrials suite fs bench profile_iters bench_iters trial) := by
  refine ⟨?_, ?_, ?_, rfl⟩
  · unfold runTrial; simp [hmiss]
  · unfold runTrial; simp [hmiss]
  · unfold runTrial; simp [hmiss, hcold]

/-- Witness for claim C4 at a concrete suite, benchmark and empty disk. -/
theorem claim_C4_witness :
    (runTrial demoSuite (fun _ => false) demoBench 1 10 0 ⟨[], [], []⟩).warm =
      ([] : List (List ℚ)) ++ [([] : List ℚ)] ∧
    (runTrial demoSuite (fun _ => false) demoBench 1 10 0 ⟨[], [], []⟩).compile_times =
      ([] : List ℚ) ++ [(-1 : ℚ)] ∧
    runTrial demoSuite (fun _ => false) demoBench 1 10 0 ⟨[], [], []⟩ =
      runTrial demoSuite (fun _ => false) demoBench 1 10 0 ⟨[], [], []⟩ ∧
    runTrials demoSuite (fun _ => false) demoBench 1 10 (0 + 1) =
      runTrial demoSuite (fun _ => false) demoBench 1 10 0
        (runTrials demoSuite (fun _ => false) demoBench 1 10 0) :=
  claim_C4 demoSuite demoSuite (fun _ => false) demoBench 1 10 0 ⟨[], [], []⟩ rfl rfl

/-- Counterexample to claim C1 as stated: on the cold curve
`[100, 90, 85, 82, 80, 80, 79, 80, 80, 80, 80]` the engine's
`cold_time_to_optimal` is 2, not 3 — index 2 already satisfies
`85 ≤ 79 * 1.1 = 86.9`. -/
theorem claim_C1_counterexample :
    (computeMetricsBench
        ⟨[[100, 90, 85, 82, 80, 80, 79, 80, 80, 80, 80]], [], []⟩).cold_time_to_optimal ≠ 3 ∧
    (computeMetricsBench
        ⟨[[100, 90, 85, 82, 80, 80, 79, 80, 80, 80, 80]], [], []⟩).cold_time_to_optimal = 2 ∧
    (85 : ℚ) ≤ 79 * 1.1 := by
  norm_num [computeMetricsBench, medianAcrossTrials, valsAt, median, pySort, insertSorted,
    List.range_succ, max_def, cold_time_to_optimal_of, threshold_of, pyMin, firstIdxLE,
    List.cons_ne_nil]

/-- Claim C1 (amended): for the cold curve
`[100, 90, 85, 82, 80, 80, 79, 80, 80, 80, 80]` the engine yields
`cold_optimal = 81.6` (mean of the last 10 values), `optimal_speedup =
100 / 81.6`, and `cold_time_to_optimal = 2` — the first index whose value is
at most `79 * 1.1 = 86.9` is index 2 (value 85), not index 3. -/
theorem claim_C1 :
    (computeMetricsBench
        ⟨[[100, 90, 85, 82, 80, 80, 79, 80, 80, 80, 80]], [], []⟩).cold_optimal = 81.6 ∧
    (computeMetricsBench
        ⟨[[100, 90, 85, 82, 80, 80, 79, 80, 80, 80, 80]], [], []⟩).optimal_speedup =
      100 / 81.6 ∧
    (computeMetricsBench
        ⟨[[100, 90, 85, 82, 80, 80, 79, 80, 80, 80, 80]], [], []⟩).cold_time_to_optimal = 2 := by
  norm_num [computeMetricsBench, medianAcrossTrials, valsAt, median, pySort, insertSorted,
    List.range_succ, max_def, cold_optimal_of, optimal_speedup_of, cold_time_to_optimal_of,
    threshold_of, pyMin, firstIdxLE, tail10, mean, List.cons_ne_nil]

/-- Counterexample to claim C2 as stated: for trials `[[10,20,30],[12],[8,22]]`
the median curve's entry at index 1 is 21, not 20 — the trial `[8, 22]` also
has an entry there. -/
theorem claim_C2_counterexample :
    (medianAcrossTrials [[10, 20, 30], [12], [8, 22]]).getD 1 0 ≠ 20 ∧
    (medianAcrossTrials [[10, 20, 30], [12], [8, 22]]).getD 1 0 = 21 := by
  norm_num [medianAcrossTrials, valsAt, median, pySort, insertSorted, List.range_succ,
    max_def, List.cons_ne_nil, List.getD_cons_zero, List.getD_cons_succ]

/-- Claim C2 (amended): for trials `[[10,20,30],[12],[8,22]]` the element-wise
median curve is `[10, 21, 30]`: index 0 is `median(10,12,8) = 10`, index 1 is
`median(20,22) = 21` (two trials contribute there, `[12]` being too short but
`[8,22]` not), index 2 is `median(30) = 30`. -/
theorem claim_C2 :
    medianAcrossTrials [[10, 20, 30], [12], [8, 22]] = [10, 21, 30] ∧
    valsAt [[10, 20, 30], [12], [8, 22]] 1 = [20, 22] ∧
    median [20, 22] = 21 := by
  norm_num [medianAcrossTrials, valsAt, median, pySort, insertSorted, List.range_succ,
    max_def, List.cons_ne_nil]

/-- Counterexample to claim C3 as stated: for an input with an empty cold
curve the engine yields the sentinel `-1`, which does not lie in
`[0, len(cold_curve)] = [0, 0]`. -/
theorem claim_C3_counterexample :
    (computeMetricsBench ⟨[], [], []⟩).cold_curve = [] ∧
    (computeMetricsBench ⟨[], [], []⟩).cold_time_to_optimal = -1 ∧
    ¬ 0 ≤ (computeMetricsBench ⟨[], [], []⟩).cold_time_to_optimal := by decide

/-- Claim C3 (amended): whenever the cold curve is non-empty,
`cold_time_to_optimal` lies in `[0, len(cold_curve)]` and equals
`len(cold_curve)` exactly when no cold-curve value lies within 10% of the
curve's minimum (that is, at most `min * 1.1`); when the cold curve is empty
the engine instead yields the sentinel `-1`. -/
theorem claim_C3 (data : BenchData) :
    ((computeMetricsBench data).cold_curve ≠ [] →
      0 ≤ (computeMetricsBench data).cold_time_to_optimal ∧
      (computeMetricsBench data).cold_time_to_optimal ≤
        ((computeMetricsBench data).cold_curve.length : Int) ∧
      ((computeMetricsBench data).cold_time_to_optimal =
          ((computeMetricsBench data).cold_curve.length : Int) ↔
        ∀ v ∈ (computeMetricsBench data).cold_curve,
          ¬ v ≤ threshold_of (computeMetricsBench data).cold_curve)) ∧
    ((computeMetricsBench data).cold_curve = [] →
      (computeMetricsBench data).cold_time_to_optimal = -1) := by
  rw [computeMetricsBench_ctto, computeMetricsBench_cold_curve]
  constructor
  · intro hne
    rw [cold_time_to_optimal_of, if_neg hne]
    refine ⟨Int.natCast_nonneg _, ?_, ?_⟩
    · exact_mod_cast firstIdxLE_le_length _ _
    · rw [Nat.cast_inj]
      exact firstIdxLE_eq_length_iff _ _
  · intro he
    rw [cold_time_to_optimal_of, if_pos he]

/-- Witness for claim C3: a non-empty cold curve `[5, 4, 3]` and an empty
one. -/
theorem claim_C3_witness :
    (0 ≤ (computeMetricsBench ⟨[[5, 4, 3]], [], []⟩).cold_time_to_optimal ∧
     (computeMetricsBench ⟨[[5, 4, 3]], [], []⟩).cold_time_to_optimal ≤
       ((computeMetricsBench ⟨[[5, 4, 3]], [], []⟩).cold_curve.length : Int) ∧
     ((computeMetricsBench ⟨[[5, 4, 3]], [], []⟩).cold_time_to_optimal =
        ((computeMetricsBench ⟨[[5, 4, 3]], [], []⟩).cold_curve.length : Int) ↔
       ∀ v ∈ (computeMetricsBench ⟨[[5, 4, 3]], [], []⟩).cold_curve,
         ¬ v ≤ threshold_of (computeMetricsBench ⟨[[5, 4, 3]], [], []⟩).cold_curve)) ∧
    (computeMetricsBench ⟨[], [], []⟩).cold_time_to_optimal = -1 :=
  ⟨(claim_C3 ⟨[[5, 4, 3]], [], []⟩).1 (by decide),
   (claim_C3 ⟨[], [], []⟩).2 (by decide)⟩

/-- Counterexample to claim C6 as stated: for the cold accumulation `[[-1]]`
the cold curve is non-empty and `cold_optimal = -1 ≠ 0`, yet the engine yields
`optimal_speedup = 0`, not the stated quotient `(-1)/(-1) = 1` — the code
guards with `cold_optimal > 0`, not `cold_optimal != 0`. -/
theorem claim_C6_counterexample :
    (computeMetricsBench ⟨[[-1]], [], []⟩).cold_curve ≠ [] ∧
    (computeMetricsBench ⟨[[-1]], [], []⟩).cold_optimal ≠ 0 ∧
    (computeMetricsBench ⟨[[-1]], [], []⟩).optimal_speedup = 0 ∧
    (computeMetricsBench ⟨[[-1]], [], []⟩).optimal_speedup ≠
      (computeMetricsBench ⟨[[-1]], [], []⟩).cold_curve.headD 0 /
        (computeMetricsBench ⟨[[-1]], [], []⟩).cold_optimal := by
  norm_num [computeMetricsBench, medianAcrossTrials, valsAt, median, pySort, insertSorted,
    List.range_succ, max_def, cold_optimal_of, optimal_speedup_of, tail10, mean,
    List.cons_ne_nil]

/-- Claim C6 (amended): the engine is total — a division never occurs with a
non-positive denominator: `optimal_speedup` is 0 whenever the cold curve is
empty or `cold_optimal ≤ 0`, and equals `cold_curve[0] / cold_optimal`
otherwise; `our_improvement` is 0 whenever the cold curve is empty or
`warm_target ≤ 0`, and equals `cold_curve[0] / warm_target` otherwise. -/
theorem claim_C6 (data : BenchData) :
    (((computeMetricsBench data).cold_curve = [] ∨
        (computeMetricsBench data).cold_optimal ≤ 0) →
      (computeMetricsBench data).optimal_speedup = 0) ∧
    ((computeMetricsBench data).cold_curve ≠ [] →
      0 < (computeMetricsBench data).cold_optimal →
      (computeMetricsBench data).optimal_speedup =
        (computeMetricsBench data).cold_curve.headD 0 /
          (computeMetricsBench data).cold_optimal) ∧
    (((computeMetricsBench data).cold_curve = [] ∨
        (computeMetricsBench data).warm_target ≤ 0) →
      (computeMetricsBench data).our_improvement = 0) ∧
    ((computeMetricsBench data).cold_curve ≠ [] →
      0 < (computeMetricsBench data).warm_target →
      (computeMetricsBench data).our_improvement =
        (computeMetricsBench data).cold_curve.headD 0 /
          (computeMetricsBench data).warm_target) := by
  rw [computeMetricsBench_optimal_speedup, computeMetricsBench_cold_optimal,
    computeMetricsBench_our_improvement, computeMetricsBench_warm_target,
    computeMetricsBench_cold_curve]
  refine ⟨?_, ?_, ?_, ?_⟩
  · rintro (hc | hle)
    · rw [optimal_speedup_of, if_pos hc]
    · by_cases hc : medianAcrossTrials data.cold = []
      · rw [optimal_speedup_of, if_pos hc]
      · rw [optimal_speedup_of, if_neg hc, if_neg (not_lt.mpr hle)]
  · intro hne hpos
    rw [optimal_speedup_of, if_neg hne, if_pos hpos]
  · rintro (hc | hle)
    · rw [our_improvement_of, if_neg]
      rintro ⟨hne, -⟩
      exact hne hc
    · rw [our_improvement_of, if_neg]
      rintro ⟨-, hpos⟩
      exact absurd hpos (not_lt.mpr hle)
  · intro hne hpos
    rw [our_improvement_of, if_pos ⟨hne, hpos⟩]

/-- Witness for claim C6: the empty accumulation (zero ratios) and the
accumulation cold `[[4, 2]]`, warm `[[6]]` (quotient ratios). -/
theorem claim_C6_witness :
    (computeMetricsBench ⟨[], [], []⟩).optimal_speedup = 0 ∧
    (computeMetricsBench ⟨[[4, 2]], [], []⟩).optimal_speedup =
      (computeMetricsBench ⟨[[4, 2]], [], []⟩).cold_curve.headD 0 /
        (computeMetricsBench ⟨[[4, 2]], [], []⟩).cold_optimal ∧
    (computeMetricsBench ⟨[], [], []⟩).our_improvement = 0 ∧
    (computeMetricsBench ⟨[[4, 2]], [[6]], []⟩).our_improvement =
      (computeMetricsBench ⟨[[4, 2]], [[6]], []⟩).cold_curve.headD 0 /
        (computeMetricsBench ⟨[[4, 2]], [[6]], []⟩).warm_target :=
  ⟨(claim_C6 ⟨[], [], []⟩).1 (Or.inl (by decide)),
   (claim_C6 ⟨[[4, 2]], [], []⟩).2.1 (by decide)
     (by
       norm_num [computeMetricsBench, medianAcrossTrials, valsAt, median, pySort,
         insertSorted, List.range_succ, max_def, cold_optimal_of, tail10, mean,
         List.cons_ne_nil]),
   (claim_C6 ⟨[], [], []⟩).2.2.1 (Or.inl (by decide)),
   (claim_C6 ⟨[[4, 2]], [[6]], []⟩).2.2.2 (by decide)
     (by
       norm_num [computeMetricsBench, medianAcrossTrials, valsAt, median, pySort,
         insertSorted, List.range_succ, max_def, warm_target_of, List.cons_ne_nil])⟩

/-- Claim C7: when `warm_target > 0` the `closeness_ratio` sequence is the
cold curve mapped through division by `warm_target` — one entry per
cold-curve index, entry `i` equal to `cold_curve[i] / warm_target`; when
`warm_target = 0` it is empty. -/
theorem claim_C7 (data : BenchData) :
    (0 < (computeMetricsBench data).warm_target →
      (computeMetricsBench data).closeness_ratio =
        (computeMetricsBench data).cold_curve.map
          (fun c => c / (computeMetricsBench data).warm_target)) ∧
    ((computeMetricsBench data).warm_target = 0 →
      (computeMetricsBench data).closeness_ratio = []) := by
  rw [computeMetricsBench_closeness, computeMetricsBench_warm_target,
    computeMetricsBench_cold_curve]
  constructor
  · intro hpos
    by_cases hc : medianAcrossTrials data.cold = []
    · rw [closeness_ratio_of, if_neg, hc]
      · rfl
      · rintro ⟨-, hne⟩
        exact hne hc
    · rw [closeness_ratio_of, if_pos ⟨hpos, hc⟩]
  · intro h0
    rw [closeness_ratio_of, if_neg]
    rintro ⟨hpos, -⟩
    rw [h0] at hpos
    exact lt_irrefl 0 hpos

/-- Witness for claim C7: cold `[[4, 2]]` with warm `[[6]]` (positive target)
and the empty accumulation (zero target). -/
theorem claim_C7_witness :
    (computeMetricsBench ⟨[[4, 2]], [[6]], []⟩).closeness_ratio =
      (computeMetricsBench ⟨[[4, 2]], [[6]], []⟩).cold_curve.map
        (fun c => c / (computeMetricsBench ⟨[[4, 2]], [[6]], []⟩).warm_target) ∧
    (computeMetricsBench ⟨[], [], []⟩).closeness_ratio = [] :=
  ⟨(claim_C7 ⟨[[4, 2]], [[6]], []⟩).1
     (by
       norm_num [computeMetricsBench, medianAcrossTrials, valsAt, median, pySort,
         insertSorted, List.range_succ, max_def, warm_target_of, List.cons_ne_nil]),
   (claim_C7 ⟨[], [], []⟩).2 (by decide)⟩

/-- Claim C10: in `_median_across_trials`, every index of the returned curve
has at least one contributing trial — the longest non-empty trial contributes
everywhere — so the `0.0` fallback is unreachable (each entry is the median
of its voters) and the curve's length is the maximum length among the
non-empty trial arrays (the curve is `[]` when all are empty). -/
theorem claim_C10 (tas : List (List ℚ)) :
    ((∀ t ∈ tas, t = []) → medianAcrossTrials tas = []) ∧
    ((∃ t ∈ tas, t ≠ []) →
      (∃ t ∈ tas, t.length = (medianAcrossTrials tas).length) ∧
      (∀ t ∈ tas, t.length ≤ (medianAcrossTrials tas).length) ∧
      medianAcrossTrials tas =
        (List.range (medianAcrossTrials tas).length).map
          (fun i => median (valsAt tas i)) ∧
      (∀ i < (medianAcrossTrials tas).length, valsAt tas i ≠ [])) := by
  constructor
  · intro hall
    rw [medianAcrossTrials, if_pos (Or.inr hall)]
  · rintro ⟨t0, ht0mem, ht0ne⟩
    have hcond : ¬ (tas = [] ∨ ∀ t ∈ tas, t = []) := by
      rintro (rfl | hall)
      · exact List.not_mem_nil t0 ht0mem
      · exact ht0ne (hall t0 ht0mem)
    have hmed : medianAcrossTrials tas =
        (List.range (((tas.filter (fun t => !t.isEmpty)).map List.length).foldr max 0)).map
          (fun i => if valsAt tas i = [] then 0 else median (valsAt tas i)) := by
      rw [medianAcrossTrials, if_neg hcond]
    have hlen : (medianAcrossTrials tas).length =
        ((tas.filter (fun t => !t.isEmpty)).map List.length).foldr max 0 := by
      rw [hmed, List.length_map, List.length_range]
    have hfmem : ∀ t ∈ tas, t ≠ [] → t ∈ tas.filter (fun t => !t.isEmpty) := by
      intro t ht htne
      refine List.mem_filter.mpr ⟨ht, ?_⟩
      cases t with
      | nil => exact absurd rfl htne
      | cons a l => rfl
    have hfne : (tas.filter (fun t => !t.isEmpty)).map List.length ≠ [] := by
      intro h
      have := hfmem t0 ht0mem ht0ne
      rw [List.map_eq_nil_iff.mp h] at this
      exact List.not_mem_nil t0 this
    have hmaxmem :
        ((tas.filter (fun t => !t.isEmpty)).map List.length).foldr max 0 ∈
          (tas.filter (fun t => !t.isEmpty)).map List.length := by
      cases hml : (tas.filter (fun t => !t.isEmpty)).map List.length with
      | nil => exact absurd hml hfne
      | cons a l => rw [← hml]; rw [hml]; exact foldr_max_mem a l
    obtain ⟨tmax, htmaxf, htmaxlen⟩ := List.mem_map.mp hmaxmem
    have htmaxtas : tmax ∈ tas := List.mem_of_mem_filter htmaxf
    have hvals : ∀ i < (medianAcrossTrials tas).length, valsAt tas i ≠ [] := by
      intro i hi
      rw [hlen] at hi
      have htf : tmax ∈ tas.filter (fun t => decide (i < t.length)) := by
        refine List.mem_filter.mpr ⟨htmaxtas, ?_⟩
        rw [decide_eq_true_eq, htmaxlen]
        exact hi
      intro hcontra
      rw [valsAt, List.map_eq_nil_iff] at hcontra
      rw [hcontra] at htf
      exact List.not_mem_nil tmax htf
    refine ⟨⟨tmax, htmaxtas, by rw [hlen, htmaxlen]⟩, ?_, ?_, hvals⟩
    · intro t ht
      rw [hlen]
      by_cases htne : t = []
      · rw [htne]
        exact Nat.zero_le _
      · exact le_foldr_max _ _ (List.mem_map_of_mem List.length (hfmem t ht htne))
    · rw [hlen] at hvals ⊢
      rw [hmed]
      refine List.map_congr_left ?_
      intro i hi
      rw [if_neg (hvals i (List.mem_range.mp hi))]

/-- Witness for claim C10: the all-empty input `[[], []]` and the mixed-length
input `[[1], [2, 3]]`. -/
theorem claim_C10_witness :
    medianAcrossTrials [([] : List ℚ), []] = [] ∧
    ((∃ t ∈ [[(1 : ℚ)], [2, 3]], t.length =
        (medianAcrossTrials [[(1 : ℚ)], [2, 3]]).length) ∧
     (∀ t ∈ [[(1 : ℚ)], [2, 3]], t.length ≤
        (medianAcrossTrials [[(1 : ℚ)], [2, 3]]).length) ∧
     medianAcrossTrials [[(1 : ℚ)], [2, 3]] =
       (List.range (medianAcrossTrials [[(1 : ℚ)], [2, 3]]).length).map
         (fun i => median (valsAt [[(1 : ℚ)], [2, 3]] i)) ∧
     (∀ i < (medianAcrossTrials [[(1 : ℚ)], [2, 3]]).length,
        valsAt [[(1 : ℚ)], [2, 3]] i ≠ [])) :=
  ⟨(claim_C10 [[], []]).1 (by decide),
   (claim_C10 [[(1 : ℚ)], [2, 3]]).2 (by decide)⟩

end BenchmarkRunner
